import Mathlib

/-!
A shallow embedding of the buoyancy and tilt physics core of the barge
stability simulator (`src/script.js`).

JavaScript numbers are modelled as real numbers, `Math.cos` / `Math.sin`
as `Real.cos` / `Real.sin`, and `Math.max` / `Math.min` as `max` / `min`.
Rendering-only state (colors, geometries, materials, the scene graph,
cameras and the DOM) is omitted; `mesh.position` is modelled by a `pos`
field and `mesh.rotation.x` / `mesh.rotation.z` by `rotX` / `rotZ`.
Class, method and attribute names follow the source.
-/

namespace Sim

noncomputable section

/-- A 3D vector, modelling a `THREE.Vector3` position. -/
@[ext]
structure Vec3 where
  x : ℝ
  y : ℝ
  z : ℝ

/-- The `Float` class of `script.js`: one buoyant pontoon section.
`pos` models `mesh.position`; `restPosition` is the extra field the
`Barge` attaches in `addFloat`; `rotX` / `rotZ` model
`mesh.rotation.x` / `mesh.rotation.z`. -/
@[ext]
structure Float where
  id : ℕ
  width : ℝ
  height : ℝ
  depth : ℝ
  weight : ℝ
  waterDensity : ℝ
  pos : Vec3
  restPosition : Vec3
  rotX : ℝ
  rotZ : ℝ

/-- The `Float` constructor: defaults `width = 20`, `height = 7`,
`depth = 10`, `weight = 20000`, `waterDensity = 62.4`; the mesh starts
at the origin. -/
def Float.init (id : ℕ) : Float :=
  { id := id, width := 20, height := 7, depth := 10, weight := 20000,
    waterDensity := 62.4, pos := ⟨0, 0, 0⟩, restPosition := ⟨0, 0, 0⟩,
    rotX := 0, rotZ := 0 }

instance : Inhabited Float := ⟨Float.init 0⟩

/-- Method `Float.calculateDraft`: `volumeNeeded = weight / waterDensity;
draft = volumeNeeded / (width * depth)`. -/
def Float.calculateDraft (f : Float) : ℝ :=
  (f.weight / f.waterDensity) / (f.width * f.depth)

/-- The `Item` class of `script.js`: a movable cargo box,
2 units on each side. -/
@[ext]
structure Item where
  width : ℝ
  height : ℝ
  depth : ℝ
  pos : Vec3
  rotX : ℝ
  rotZ : ℝ

/-- The `Item` constructor. -/
def Item.init : Item :=
  { width := 2, height := 2, depth := 2, pos := ⟨0, 0, 0⟩, rotX := 0, rotZ := 0 }

instance : Inhabited Item := ⟨Item.init⟩

/-- The `Barge` class: the flotation assembly state (the `scene`
rendering handle is omitted). -/
@[ext]
structure Barge where
  floats : List Float
  items : List Item
  nextFloatId : ℕ
  centerFlotation : Vec3
  tiltX : ℝ
  tiltZ : ℝ

/-- Method `Barge.calculateCenterFlotation`: area-weighted centroid of the
floats' current `mesh.position` x/z, with y fixed at 0; early-returns
on an empty float list. -/
def Barge.calculateCenterFlotation (b : Barge) : Barge :=
  match b.floats with
  | [] => b
  | _ :: _ =>
    let totalArea := (b.floats.map fun f => f.width * f.depth).sum
    let weightedX := (b.floats.map fun f => f.pos.x * (f.width * f.depth)).sum
    let weightedZ := (b.floats.map fun f => f.pos.z * (f.width * f.depth)).sum
    { b with centerFlotation := ⟨weightedX / totalArea, 0, weightedZ / totalArea⟩ }

/-- Method `Barge.calculateArea`: total footprint area of all floats. -/
def Barge.calculateArea (b : Barge) : ℝ :=
  (b.floats.map fun f => f.width * f.depth).sum

/-- Last element of a float list, modelling the JavaScript access
`this.floats[this.floats.length - 1]` guarded by `length > 0`. -/
def lastF : List Float → Option Float
  | [] => none
  | [f] => some f
  | _ :: f :: fs => lastF (f :: fs)

/-- The new float constructed inside `Barge.addFloat`, with its
placement: `y = -draft + height / 2`; first float at the origin,
later floats adjacent to the most recently added float along x. -/
def Barge.newFloatOf (b : Barge) : Float :=
  let f0 := Float.init b.nextFloatId
  let yPosition := -f0.calculateDraft + f0.height / 2
  match lastF b.floats with
  | none =>
    { f0 with pos := ⟨0, yPosition, 0⟩, restPosition := ⟨0, yPosition, 0⟩ }
  | some lastFloat =>
    let xPosition := lastFloat.pos.x + lastFloat.width / 2 + f0.width / 2
    { f0 with pos := ⟨xPosition, yPosition, lastFloat.pos.z⟩,
              restPosition := ⟨xPosition, yPosition, lastFloat.pos.z⟩ }

/-- Method `Barge.addFloat`: construct and place the new float, increment
`nextFloatId`, append, then recompute the center of flotation. -/
def Barge.addFloat (b : Barge) : Barge :=
  ({ b with nextFloatId := b.nextFloatId + 1,
            floats := b.floats ++ [b.newFloatOf] }).calculateCenterFlotation

/-- Method `Barge.addItem`: new item at the current center of flotation,
resting on float 0's top surface. -/
def Barge.addItem (b : Barge) : Barge :=
  let item0 := Item.init
  let f := b.floats.headI
  let initialY := f.pos.y + f.height / 2 + item0.height / 2
  { b with items := b.items ++
      [{ item0 with pos := ⟨b.centerFlotation.x, initialY, b.centerFlotation.z⟩ }] }

/-- Method `Barge.calculateTilt`: small-angle tilt from item 0's horizontal
offset to the center of flotation; no-op when there are no items. -/
def Barge.calculateTilt (b : Barge) : Barge :=
  match b.items with
  | [] => b
  | item :: _ =>
    let offsetX := item.pos.x - b.centerFlotation.x
    let offsetZ := item.pos.z - b.centerFlotation.z
    let maxTilt : ℝ := 0.05
    { b with tiltX := -(offsetZ / 5) * maxTilt, tiltZ := offsetX / 10 * maxTilt }

/-- The per-float body of `Barge.applyTiltToFloats`: rest position
relative to the center, rotated in the X/Y plane by `-tiltZ`, then in
the Y/Z plane by `-tiltX`, translated back; rotation set to the
negated tilt angles. -/
def tiltFloat (center : Vec3) (tX tZ : ℝ) (f : Float) : Float :=
  let relativeX := f.restPosition.x - center.x
  let relativeZ := f.restPosition.z - center.z
  let relativeY := f.restPosition.y - center.y
  let cosX := Real.cos (-tX)
  let sinX := Real.sin (-tX)
  let cosZ := Real.cos (-tZ)
  let sinZ := Real.sin (-tZ)
  let tempX := relativeX * cosZ - relativeY * sinZ
  let tempY := relativeX * sinZ + relativeY * cosZ
  let tempZ := relativeZ
  let newY := tempY * cosX - tempZ * sinX
  let newZ := tempY * sinX + tempZ * cosX
  let newX := tempX
  { f with pos := ⟨center.x + newX, center.y + newY, center.z + newZ⟩,
           rotX := -tX, rotZ := -tZ }

/-- Method `Barge.applyTiltToFloats`. -/
def Barge.applyTiltToFloats (b : Barge) : Barge :=
  { b with floats := b.floats.map (tiltFloat b.centerFlotation b.tiltX b.tiltZ) }

/-- The per-item body of `Barge.updateItemPositions`: the deck surface
point under the item is rotated (about X first, then Z, as in the
source), and only the item's vertical position and rotation are
written. -/
def tiltItem (center : Vec3) (tX tZ centerSurfaceY : ℝ) (item : Item) : Item :=
  let relativeX := item.pos.x - center.x
  let relativeZ := item.pos.z - center.z
  let spY := centerSurfaceY - center.y
  let cosX := Real.cos (-tX)
  let sinX := Real.sin (-tX)
  let cosZ := Real.cos (-tZ)
  let sinZ := Real.sin (-tZ)
  let y1 := spY * cosX - relativeZ * sinX
  let z1 := spY * sinX + relativeZ * cosX
  let x1 := relativeX
  let x2 := x1 * cosZ - y1 * sinZ
  let y2 := x1 * sinZ + y1 * cosZ
  let z2 := z1
  let rotatedSurfaceY := center.y + y2
  { item with pos := ⟨item.pos.x, rotatedSurfaceY + item.height / 2, item.pos.z⟩,
              rotX := -tX, rotZ := -tZ }

/-- Method `Barge.updateItemPositions`: `centerSurfaceY` comes from float 0's
rest position and height. -/
def Barge.updateItemPositions (b : Barge) : Barge :=
  let f := b.floats.headI
  let centerSurfaceY := f.restPosition.y + f.height / 2
  { b with items := b.items.map (tiltItem b.centerFlotation b.tiltX b.tiltZ centerSurfaceY) }

/-- Method `Barge.update`: the fixed recomputation pipeline. -/
def Barge.update (b : Barge) : Barge :=
  b.calculateCenterFlotation.calculateTilt.applyTiltToFloats.updateItemPositions

/-- In-place update of the i-th element of a list, modelling the
JavaScript write `this.items[itemIndex].mesh.position`. -/
def listModify {α : Type*} : List α → ℕ → (α → α) → List α
  | [], _, _ => []
  | a :: t, 0, g => g a :: t
  | a :: t, i + 1, g => a :: listModify t i g

/-- Method `Barge.moveItem`: clamp the requested x/z against float 0's
half-extents minus 1, write the item position, then run `update`;
silently does nothing for an out-of-range index. -/
def Barge.moveItem (b : Barge) (itemIndex : ℕ) (x z : ℝ) : Barge :=
  if itemIndex < b.items.length then
    let mainFloat := b.floats.headI
    let halfWidth := mainFloat.width / 2 - 1
    let halfDepth := mainFloat.depth / 2 - 1
    let constrainedX := max (-halfWidth) (min halfWidth x)
    let constrainedZ := max (-halfDepth) (min halfDepth z)
    let write := fun item : Item => { item with pos := ⟨constrainedX, item.pos.y, constrainedZ⟩ }
    ({ b with items := listModify b.items itemIndex write }).update
  else b

/-- The `Barge` state before the constructor body runs. -/
def Barge.empty : Barge :=
  { floats := [], items := [], nextFloatId := 1,
    centerFlotation := ⟨0, 0, 0⟩, tiltX := 0, tiltZ := 0 }

/-- The `Barge` constructor: initial fields, then one `addFloat` and
one `addItem`. -/
def Barge.new : Barge :=
  Barge.empty.addFloat.addItem

/-- One guarded attribute write of `updateFloatProperties`:
`if (!isNaN(v) && v > 0) field = v` — `none` models a `NaN` parse. -/
def applyEdit (old : ℝ) (inp : Option ℝ) : ℝ :=
  match inp with
  | none => old
  | some v => if 0 < v then v else old

/-- Whether a guarded attribute write of `updateFloatProperties` fires
(this is what sets `recalculateY` in the source). -/
def accepted (inp : Option ℝ) : Bool :=
  match inp with
  | none => false
  | some v => if 0 < v then true else false

/-- The float mutation performed by the `updateFloatProperties`
handler: validated width/depth/height/weight writes, unvalidated
x/z position writes, and the y recalculation
`y = -draft + height / 2` unless y was edited manually. -/
def editFloat (f : Float) (len wid hgt wgt px pz : Option ℝ)
    (manualY : Bool) (py : Option ℝ) : Float :=
  let f1 := { f with
    width := applyEdit f.width len,
    depth := applyEdit f.depth wid,
    height := applyEdit f.height hgt,
    weight := applyEdit f.weight wgt }
  let recalculateY := accepted len || accepted wid || accepted hgt || accepted wgt
  let posX := match px with | none => f1.pos.x | some v => v
  let posZ := match pz with | none => f1.pos.z | some v => v
  let f2 := { f1 with pos := ⟨posX, f1.pos.y, posZ⟩ }
  if recalculateY && !manualY then
    { f2 with pos := ⟨f2.pos.x, -f2.calculateDraft + f2.height / 2, f2.pos.z⟩ }
  else if manualY then
    match py with
    | some v => { f2 with pos := ⟨f2.pos.x, v, f2.pos.z⟩ }
    | none => f2
  else f2

/-- The `updateFloatProperties` handler restricted to physics state:
mutate float 0, recompute the center of flotation, then run `update`
(DOM and helper-plane bookkeeping omitted). -/
def Barge.updateFloatProperties (b : Barge) (len wid hgt wgt px pz : Option ℝ)
    (manualY : Bool) (py : Option ℝ) : Barge :=
  let edit := fun f => editFloat f len wid hgt wgt px pz manualY py
  ({ b with floats := listModify b.floats 0 edit }).calculateCenterFlotation.update

/-- The two-stage rotation described by the specification, first
stage: rotation in the X/Y plane (about the Z-tilt axis). -/
def rotZXY (θ : ℝ) (v : Vec3) : Vec3 :=
  ⟨v.x * Real.cos θ - v.y * Real.sin θ, v.x * Real.sin θ + v.y * Real.cos θ, v.z⟩

/-- The two-stage rotation described by the specification, second
stage: rotation in the Y/Z plane (about the X-tilt axis). -/
def rotXYZ (θ : ℝ) (v : Vec3) : Vec3 :=
  ⟨v.x, v.y * Real.cos θ - v.z * Real.sin θ, v.y * Real.sin θ + v.z * Real.cos θ⟩

/-- Componentwise vector sum. -/
def Vec3.add (a b : Vec3) : Vec3 := ⟨a.x + b.x, a.y + b.y, a.z + b.z⟩

/-- Componentwise vector difference. -/
def Vec3.sub (a b : Vec3) : Vec3 := ⟨a.x - b.x, a.y - b.y, a.z - b.z⟩

/-- The specification's description of the per-float action of
`applyTiltToFloats`: rest position relative to the center, rotated in
the X/Y plane first and then in the Y/Z plane, translated back, with
the rotation set to the negated tilt angles. -/
def specTilted (c : Vec3) (tX tZ : ℝ) (f : Float) : Float :=
  { f with pos := Vec3.add c (rotXYZ (-tX) (rotZXY (-tZ) (Vec3.sub f.restPosition c))), rotX := -tX, rotZ := -tZ }

/-- A float placed at its rest position with zero rotation. -/
def atRest (f : Float) : Float :=
  { f with pos := f.restPosition, rotX := 0, rotZ := 0 }

/-- The pontoon produced by the `Barge` constructor, in equilibrium:
`y = -((20000 / 62.4) / (20 * 10)) + 7 / 2 = 74 / 39`. -/
def float1 : Float :=
  { id := 1, width := 20, height := 7, depth := 10, weight := 20000, waterDensity := 62.4, pos := ⟨0, 74 / 39, 0⟩, restPosition := ⟨0, 74 / 39, 0⟩, rotX := 0, rotZ := 0 }

/-- The item produced by the `Barge` constructor, resting on the
pontoon's deck at the center of flotation:
`y = 74 / 39 + 7 / 2 + 2 / 2 = 499 / 78`. -/
def item1 : Item :=
  { width := 2, height := 2, depth := 2, pos := ⟨0, 499 / 78, 0⟩, rotX := 0, rotZ := 0 }

end

/-! ## Frame lemmas: fields each operation leaves unchanged -/

@[simp] lemma calculateCenterFlotation_floats (b : Barge) :
    b.calculateCenterFlotation.floats = b.floats := by
  cases hb : b.floats <;> simp [Barge.calculateCenterFlotation, hb]

@[simp] lemma calculateCenterFlotation_items (b : Barge) :
    b.calculateCenterFlotation.items = b.items := by
  cases hb : b.floats <;> simp [Barge.calculateCenterFlotation, hb]

@[simp] lemma calculateCenterFlotation_tiltX (b : Barge) :
    b.calculateCenterFlotation.tiltX = b.tiltX := by
  cases hb : b.floats <;> simp [Barge.calculateCenterFlotation, hb]

@[simp] lemma calculateCenterFlotation_tiltZ (b : Barge) :
    b.calculateCenterFlotation.tiltZ = b.tiltZ := by
  cases hb : b.floats <;> simp [Barge.calculateCenterFlotation, hb]

@[simp] lemma calculateCenterFlotation_nextFloatId (b : Barge) :
    b.calculateCenterFlotation.nextFloatId = b.nextFloatId := by
  cases hb : b.floats <;> simp [Barge.calculateCenterFlotation, hb]

@[simp] lemma calculateTilt_floats (b : Barge) :
    b.calculateTilt.floats = b.floats := by
  cases hb : b.items <;> simp [Barge.calculateTilt, hb]

@[simp] lemma calculateTilt_items (b : Barge) :
    b.calculateTilt.items = b.items := by
  cases hb : b.items <;> simp [Barge.calculateTilt, hb]

@[simp] lemma calculateTilt_centerFlotation (b : Barge) :
    b.calculateTilt.centerFlotation = b.centerFlotation := by
  cases hb : b.items <;> simp [Barge.calculateTilt, hb]

@[simp] lemma calculateTilt_nextFloatId (b : Barge) :
    b.calculateTilt.nextFloatId = b.nextFloatId := by
  cases hb : b.items <;> simp [Barge.calculateTilt, hb]

@[simp] lemma applyTiltToFloats_items (b : Barge) :
    b.applyTiltToFloats.items = b.items := rfl

@[simp] lemma applyTiltToFloats_centerFlotation (b : Barge) :
    b.applyTiltToFloats.centerFlotation = b.centerFlotation := rfl

@[simp] lemma applyTiltToFloats_tiltX (b : Barge) :
    b.applyTiltToFloats.tiltX = b.tiltX := rfl

@[simp] lemma applyTiltToFloats_tiltZ (b : Barge) :
    b.applyTiltToFloats.tiltZ = b.tiltZ := rfl

@[simp] lemma applyTiltToFloats_nextFloatId (b : Barge) :
    b.applyTiltToFloats.nextFloatId = b.nextFloatId := rfl

@[simp] lemma applyTiltToFloats_floats_eq (b : Barge) :
    b.applyTiltToFloats.floats =
      b.floats.map (tiltFloat b.centerFlotation b.tiltX b.tiltZ) := rfl

@[simp] lemma updateItemPositions_floats (b : Barge) :
    b.updateItemPositions.floats = b.floats := rfl

@[simp] lemma updateItemPositions_centerFlotation (b : Barge) :
    b.updateItemPositions.centerFlotation = b.centerFlotation := rfl

@[simp] lemma updateItemPositions_tiltX (b : Barge) :
    b.updateItemPositions.tiltX = b.tiltX := rfl

@[simp] lemma updateItemPositions_tiltZ (b : Barge) :
    b.updateItemPositions.tiltZ = b.tiltZ := rfl

@[simp] lemma updateItemPositions_nextFloatId (b : Barge) :
    b.updateItemPositions.nextFloatId = b.nextFloatId := rfl

@[simp] lemma updateItemPositions_items_eq (b : Barge) :
    b.updateItemPositions.items =
      b.items.map (tiltItem b.centerFlotation b.tiltX b.tiltZ
        (b.floats.headI.restPosition.y + b.floats.headI.height / 2)) := rfl

/- `tiltFloat` changes only position and rotation. -/

@[simp] lemma tiltFloat_id (c : Vec3) (tX tZ : ℝ) (f : Float) :
    (tiltFloat c tX tZ f).id = f.id := rfl

@[simp] lemma tiltFloat_width (c : Vec3) (tX tZ : ℝ) (f : Float) :
    (tiltFloat c tX tZ f).width = f.width := rfl

@[simp] lemma tiltFloat_height (c : Vec3) (tX tZ : ℝ) (f : Float) :
    (tiltFloat c tX tZ f).height = f.height := rfl

@[simp] lemma tiltFloat_depth (c : Vec3) (tX tZ : ℝ) (f : Float) :
    (tiltFloat c tX tZ f).depth = f.depth := rfl

@[simp] lemma tiltFloat_weight (c : Vec3) (tX tZ : ℝ) (f : Float) :
    (tiltFloat c tX tZ f).weight = f.weight := rfl

@[simp] lemma tiltFloat_waterDensity (c : Vec3) (tX tZ : ℝ) (f : Float) :
    (tiltFloat c tX tZ f).waterDensity = f.waterDensity := rfl

@[simp] lemma tiltFloat_restPosition (c : Vec3) (tX tZ : ℝ) (f : Float) :
    (tiltFloat c tX tZ f).restPosition = f.restPosition := rfl

/- `tiltItem` changes only the vertical position and the rotation. -/

@[simp] lemma tiltItem_width (c : Vec3) (tX tZ sy : ℝ) (i : Item) :
    (tiltItem c tX tZ sy i).width = i.width := rfl

@[simp] lemma tiltItem_height (c : Vec3) (tX tZ sy : ℝ) (i : Item) :
    (tiltItem c tX tZ sy i).height = i.height := rfl

@[simp] lemma tiltItem_depth (c : Vec3) (tX tZ sy : ℝ) (i : Item) :
    (tiltItem c tX tZ sy i).depth = i.depth := rfl

@[simp] lemma tiltItem_pos_x (c : Vec3) (tX tZ sy : ℝ) (i : Item) :
    (tiltItem c tX tZ sy i).pos.x = i.pos.x := rfl

@[simp] lemma tiltItem_pos_z (c : Vec3) (tX tZ sy : ℝ) (i : Item) :
    (tiltItem c tX tZ sy i).pos.z = i.pos.z := rfl

lemma listModify_length {α : Type*} (l : List α) (i : ℕ) (g : α → α) :
    (listModify l i g).length = l.length := by
  induction l generalizing i with
  | nil => rfl
  | cons a t ih => cases i <;> simp [listModify, ih]

/-- Agreement of `lastF` with `List.getLast?`. -/
lemma lastF_eq_getLast? : ∀ l : List Float, lastF l = l.getLast? := by
  intro l
  induction l with
  | nil => rfl
  | cons a t ih =>
    cases t with
    | nil => rfl
    | cons b u => rw [lastF, ih, List.getLast?_cons_cons]

/-! ## Evaluation of the constructed barge -/

/-- The state produced by the `Barge` constructor: one pontoon at the
origin floating at `y = -draft + height / 2 = 74 / 39`, one item on its
deck at the center of flotation, zero tilt. -/
lemma new_eval : Barge.new =
    { floats := [float1], items := [item1], nextFloatId := 2, centerFlotation := ⟨0, 0, 0⟩, tiltX := 0, tiltZ := 0 } := by
  norm_num [Barge.new, Barge.empty, Barge.addFloat, Barge.addItem,
    Barge.newFloatOf, Barge.calculateCenterFlotation, lastF,
    Float.init, Float.calculateDraft, Item.init, List.headI, float1, item1]

/-! ## Claim C4: `calculateDraft` -/

/-- C4: `calculateDraft` returns `(weight / fluidDensity) /
(width × depth)`, depends only on the pontoon's current weight,
density, width and depth (purity), and is strictly positive whenever
those four attributes are strictly positive. -/
theorem calculateDraft_spec (f : Float) :
    f.calculateDraft = (f.weight / f.waterDensity) / (f.width * f.depth) ∧
    (∀ g : Float, f.weight = g.weight → f.waterDensity = g.waterDensity →
      f.width = g.width → f.depth = g.depth →
      f.calculateDraft = g.calculateDraft) ∧
    (0 < f.weight → 0 < f.waterDensity → 0 < f.width → 0 < f.depth →
      0 < f.calculateDraft) := by
  refine ⟨rfl, ?_, ?_⟩
  · intro g hw hd hwi hde
    simp [Float.calculateDraft, hw, hd, hwi, hde]
  · intro h1 h2 h3 h4
    exact div_pos (div_pos h1 h2) (mul_pos h3 h4)

/-- Witness for C4 at the default pontoon: all four attributes are
positive and the computed draft is positive. -/
theorem calculateDraft_spec_witness :
    (0:ℝ) < (Float.init 1).weight ∧ 0 < (Float.init 1).calculateDraft := by
  have h := calculateDraft_spec (Float.init 1)
  constructor
  · norm_num [Float.init]
  · exact h.2.2 (by norm_num [Float.init]) (by norm_num [Float.init])
      (by norm_num [Float.init]) (by norm_num [Float.init])

/-! ## Claim C2: `calculateTilt` -/

/-- C2: with at least one item, `calculateTilt` sets
`tiltZ = (item0.x - center.x) / 10 * 0.05` and
`tiltX = -((item0.z - center.z) / 5) * 0.05`; the result depends only
on item 0 and the center of flotation (items other than item 0 have no
influence); and with a single pontoon of positive footprint and item 0
at the pontoon's horizontal center, both tilt angles are exactly 0
after the center of flotation is computed. -/
theorem calculateTilt_spec (b : Barge) (h : b.items ≠ []) :
    (b.calculateTilt.tiltZ = (b.items.headI.pos.x - b.centerFlotation.x) / 10 * 0.05 ∧
     b.calculateTilt.tiltX = -((b.items.headI.pos.z - b.centerFlotation.z) / 5) * 0.05) ∧
    (∀ b' : Barge, b'.items ≠ [] → b'.items.headI = b.items.headI →
      b'.centerFlotation = b.centerFlotation →
      b'.calculateTilt.tiltX = b.calculateTilt.tiltX ∧
      b'.calculateTilt.tiltZ = b.calculateTilt.tiltZ) ∧
    (∀ p : Float, b.floats = [p] → 0 < p.width → 0 < p.depth →
      b.items.headI.pos.x = p.pos.x → b.items.headI.pos.z = p.pos.z →
      b.calculateCenterFlotation.calculateTilt.tiltX = 0 ∧
      b.calculateCenterFlotation.calculateTilt.tiltZ = 0) := by
  obtain ⟨i, rest, hb⟩ : ∃ i rest, b.items = i :: rest := by
    cases hbi : b.items with
    | nil => exact absurd hbi h
    | cons i rest => exact ⟨i, rest, rfl⟩
  constructor
  · simp [Barge.calculateTilt, hb]
  constructor
  · intro b' h' hhead hc
    obtain ⟨i', rest', hb'⟩ : ∃ i' rest', b'.items = i' :: rest' := by
      cases hbi : b'.items with
      | nil => exact absurd hbi h'
      | cons i' rest' => exact ⟨i', rest', rfl⟩
    have hi : i' = i := by
      have := hhead
      simp [hb, hb'] at this
      exact this
    simp [Barge.calculateTilt, hb, hb', hi, hc]
  · intro p hp hw hd hx hz
    have harea : p.width * p.depth ≠ 0 := ne_of_gt (mul_pos hw hd)
    have hcenter : b.calculateCenterFlotation.centerFlotation =
        ⟨p.pos.x, 0, p.pos.z⟩ := by
      simp [Barge.calculateCenterFlotation, hp]
      constructor <;> (field_simp; try ring)
    have hitems : b.calculateCenterFlotation.items = b.items := by
      simp [Barge.calculateCenterFlotation, hp]
    simp [Barge.calculateTilt, hitems, hb, hcenter]
    constructor
    · have : i.pos.z = p.pos.z := by simpa [hb] using hz
      simp [this]
    · have : i.pos.x = p.pos.x := by simpa [hb] using hx
      simp [this]

/-- Witness for C2 on the freshly constructed barge: its single item
sits at the pontoon's horizontal center, so both tilt angles are 0. -/
theorem calculateTilt_spec_witness :
    Barge.new.items ≠ [] ∧
    Barge.new.calculateCenterFlotation.calculateTilt.tiltX = 0 ∧
    Barge.new.calculateCenterFlotation.calculateTilt.tiltZ = 0 := by
  have hne : Barge.new.items ≠ [] := by rw [new_eval]; simp
  have h := (calculateTilt_spec Barge.new hne).2.2 (Barge.new.floats.headI)
  refine ⟨hne, h ?_ ?_ ?_ ?_ ?_⟩
  · rw [new_eval]; simp [List.headI]
  · rw [new_eval]; norm_num [List.headI, float1]
  · rw [new_eval]; norm_num [List.headI, float1]
  · rw [new_eval]; simp [List.headI, float1, item1]
  · rw [new_eval]; simp [List.headI, float1, item1]

/-! ## Claim C3: `applyTiltToFloats` -/

/-- With zero tilt angles, the per-float rotation body degenerates to
placing the float at its rest position with zero rotation. -/
lemma tiltFloat_zero (c : Vec3) (f : Float) : tiltFloat c 0 0 f = atRest f := by
  ext <;> simp [tiltFloat, atRest]

/-- C3: `applyTiltToFloats` maps every pontoon's rest position,
taken relative to the center of flotation, through the rotation in the
X/Y plane (about the Z-tilt axis) and then the rotation in the Y/Z
plane (about the X-tilt axis), adds back the center offset, and sets
the pontoon's rotation about each axis to the negated tilt angle; with
`tiltX = tiltZ = 0` every pontoon is put exactly at its rest position,
so pontoons already at rest keep their positions unchanged. -/
theorem applyTiltToFloats_spec (b : Barge) :
    (b.applyTiltToFloats.floats =
      b.floats.map (specTilted b.centerFlotation b.tiltX b.tiltZ)) ∧
    (b.tiltX = 0 → b.tiltZ = 0 →
      b.applyTiltToFloats.floats = b.floats.map atRest) ∧
    (b.tiltX = 0 → b.tiltZ = 0 → (∀ f ∈ b.floats, f.pos = f.restPosition) →
      b.applyTiltToFloats.floats.map (fun f => f.pos) =
        b.floats.map (fun f => f.pos)) := by
  have hrot : ∀ hX : b.tiltX = 0, ∀ hZ : b.tiltZ = 0,
      b.applyTiltToFloats.floats = b.floats.map atRest := by
    intro hX hZ
    simp only [Barge.applyTiltToFloats, hX, hZ]
    exact List.map_congr_left fun f _ => tiltFloat_zero _ f
  refine ⟨?_, hrot, ?_⟩
  · rfl
  · intro hX hZ hrest
    rw [hrot hX hZ, List.map_map]
    exact List.map_congr_left fun f hf => by simp [atRest, (hrest f hf).symm]

/-- Witness for C3: on the freshly constructed barge (zero tilt), the
rotation leaves the single pontoon at its rest position. -/
theorem applyTiltToFloats_spec_witness :
    Barge.new.tiltX = 0 ∧ Barge.new.tiltZ = 0 ∧
    Barge.new.applyTiltToFloats.floats.map (fun f => f.pos) =
      Barge.new.floats.map (fun f => f.pos) := by
  have hX : Barge.new.tiltX = 0 := by rw [new_eval]
  have hZ : Barge.new.tiltZ = 0 := by rw [new_eval]
  refine ⟨hX, hZ, (applyTiltToFloats_spec Barge.new).2.2 hX hZ ?_⟩
  intro f hf
  rw [new_eval] at hf
  simp only [List.mem_singleton] at hf
  rw [hf]
  rfl

/-! ## Claim C7: `calculateCenterFlotation` -/

/-- Closed form of `calculateCenterFlotation` on a nonempty float
list. -/
lemma calculateCenterFlotation_eval (b : Barge) (hne : b.floats ≠ []) :
    b.calculateCenterFlotation.centerFlotation =
      ⟨(b.floats.map fun f => f.pos.x * (f.width * f.depth)).sum /
         (b.floats.map fun f => f.width * f.depth).sum, 0,
       (b.floats.map fun f => f.pos.z * (f.width * f.depth)).sum /
         (b.floats.map fun f => f.width * f.depth).sum⟩ := by
  obtain ⟨fl, it, n, c, tx, tz⟩ := b
  obtain ⟨f, t, rfl⟩ := List.exists_cons_of_ne_nil hne
  simp [Barge.calculateCenterFlotation]

/-- C7: on a nonempty pontoon list, `calculateCenterFlotation`
sets the center to the footprint-area-weighted average of the
pontoons' x and z positions with y fixed at 0; the resulting center is
invariant under any permutation of the pontoon list; and with zero
pontoons the call is a complete no-op that retains the previous center
(no division is performed). -/
theorem calculateCenterFlotation_spec (b : Barge) :
    (b.floats ≠ [] →
      b.calculateCenterFlotation.centerFlotation =
        ⟨(b.floats.map fun f => f.pos.x * (f.width * f.depth)).sum /
           (b.floats.map fun f => f.width * f.depth).sum, 0,
         (b.floats.map fun f => f.pos.z * (f.width * f.depth)).sum /
           (b.floats.map fun f => f.width * f.depth).sum⟩) ∧
    (∀ b' : Barge, b.floats ≠ [] → b.floats.Perm b'.floats →
      b.calculateCenterFlotation.centerFlotation =
        b'.calculateCenterFlotation.centerFlotation) ∧
    (b.floats = [] → b.calculateCenterFlotation = b) := by
  refine ⟨calculateCenterFlotation_eval b, ?_, ?_⟩
  · intro b' hne hperm
    have hne' : b'.floats ≠ [] := by
      intro h0
      rw [h0] at hperm
      exact hne hperm.eq_nil
    rw [calculateCenterFlotation_eval b hne, calculateCenterFlotation_eval b' hne',
      (hperm.map fun f => f.pos.x * (f.width * f.depth)).sum_eq,
      (hperm.map fun f => f.pos.z * (f.width * f.depth)).sum_eq,
      (hperm.map fun f => f.width * f.depth).sum_eq]
  · intro h0
    obtain ⟨fl, it, n, c, tx, tz⟩ := b
    simp only at h0
    subst h0
    rfl

/-- Witness for C7: the constructed barge has a nonempty float list,
and reversing it (a permutation) leaves the computed center equal. -/
theorem calculateCenterFlotation_spec_witness :
    Barge.new.floats ≠ [] ∧
    Barge.new.calculateCenterFlotation.centerFlotation =
      { Barge.new with floats := Barge.new.floats.reverse
        }.calculateCenterFlotation.centerFlotation := by
  have hne : Barge.new.floats ≠ [] := by rw [new_eval]; simp
  exact ⟨hne, (calculateCenterFlotation_spec Barge.new).2.1
    { Barge.new with floats := Barge.new.floats.reverse } hne
    (List.reverse_perm _).symm⟩

/-! ## Claim C5: `addFloat` -/

/-- Two pontoons tile edge-to-edge along x with zero gap and zero
overlap: the right edge of the first is the left edge of the second,
at the same z. -/
def adjacent (f g : Float) : Prop :=
  g.pos.x - g.width / 2 = f.pos.x + f.width / 2 ∧ g.pos.z = f.pos.z

lemma addFloat_floats (b : Barge) :
    b.addFloat.floats = b.floats ++ [b.newFloatOf] := by
  simp [Barge.addFloat]

/-- Each `addFloat` preserves the edge-to-edge tiling of the float
list. -/
lemma chain'_addFloat (b : Barge) (h : List.Chain' adjacent b.floats) :
    List.Chain' adjacent b.addFloat.floats := by
  rw [addFloat_floats, List.chain'_append]
  refine ⟨h, List.chain'_singleton _, ?_⟩
  intro x hx y hy
  simp only [List.head?_cons, Option.mem_some_iff] at hy
  subst hy
  have hl : lastF b.floats = some x := by
    rw [lastF_eq_getLast?]
    exact hx
  constructor <;> simp [Barge.newFloatOf, hl, Float.init]

/-- C5: `addFloat` places the first pontoon at the horizontal
origin and every later pontoon at the previous pontoon's x plus both
half-widths, at the previous pontoon's z; the new pontoon's vertical
coordinate is `-draft + height / 2` and is stored as both current and
rest position; the identifier is fresh and `nextFloatId` increases;
the center of flotation is recomputed from the extended list; and any
number of sequential `addFloat` calls keeps the float list tiled
edge-to-edge with zero gap and zero overlap in insertion order. -/
theorem addFloat_spec (b : Barge) :
    (b.floats = [] → b.newFloatOf.pos.x = 0 ∧ b.newFloatOf.pos.z = 0) ∧
    (∀ lf : Float, lastF b.floats = some lf →
      b.newFloatOf.pos.x = lf.pos.x + lf.width / 2 + b.newFloatOf.width / 2 ∧
      b.newFloatOf.pos.z = lf.pos.z) ∧
    (b.newFloatOf.pos.y = -b.newFloatOf.calculateDraft + b.newFloatOf.height / 2) ∧
    (b.newFloatOf.restPosition = b.newFloatOf.pos) ∧
    (b.newFloatOf.id = b.nextFloatId ∧ b.addFloat.nextFloatId = b.nextFloatId + 1) ∧
    ((∀ f ∈ b.floats, f.id < b.nextFloatId) →
      (∀ f ∈ b.floats, f.id ≠ b.newFloatOf.id) ∧
      (∀ f ∈ b.addFloat.floats, f.id < b.addFloat.nextFloatId)) ∧
    (b.addFloat.floats = b.floats ++ [b.newFloatOf]) ∧
    (b.addFloat.centerFlotation =
      ({ b with floats := b.floats ++ [b.newFloatOf] } : Barge
        ).calculateCenterFlotation.centerFlotation) ∧
    (∀ n : ℕ, List.Chain' adjacent (Barge.addFloat^[n] Barge.new).floats) := by
  have hid : b.newFloatOf.id = b.nextFloatId := by
    cases hl : lastF b.floats <;> simp [Barge.newFloatOf, hl, Float.init]
  refine ⟨?_, ?_, ?_, ?_, ⟨hid, ?_⟩, ?_, addFloat_floats b, ?_, ?_⟩
  · intro h0
    simp [Barge.newFloatOf, h0, lastF]
  · intro lf hl
    simp [Barge.newFloatOf, hl, Float.init]
  · cases hl : lastF b.floats <;>
      simp [Barge.newFloatOf, hl, Float.init, Float.calculateDraft]
  · cases hl : lastF b.floats <;> simp [Barge.newFloatOf, hl, Float.init]
  · simp [Barge.addFloat]
  · intro hlt
    constructor
    · intro f hf
      rw [hid]
      exact Nat.ne_of_lt (hlt f hf)
    · intro f hf
      rw [addFloat_floats] at hf
      have hnext : b.addFloat.nextFloatId = b.nextFloatId + 1 := by simp [Barge.addFloat]
      rw [hnext]
      rcases List.mem_append.mp hf with hmem | hmem
      · exact Nat.lt_succ_of_lt (hlt f hmem)
      · simp only [List.mem_singleton] at hmem
        subst hmem
        rw [hid]
        exact Nat.lt_succ_self _
  · rw [Barge.addFloat, calculateCenterFlotation_eval _ (by simp),
      calculateCenterFlotation_eval _ (by simp)]
  · intro n
    induction n with
    | zero =>
      rw [Function.iterate_zero_apply, new_eval]
      exact List.chain'_singleton _
    | succ k ih =>
      rw [Function.iterate_succ_apply']
      exact chain'_addFloat _ ih

/-- Witness for C5: the first pontoon goes to the origin; on the
constructed barge the next pontoon is placed adjacent to `float1`, and
all identifiers stay below `nextFloatId`. -/
theorem addFloat_spec_witness :
    Barge.empty.floats = [] ∧
    Barge.empty.newFloatOf.pos.x = 0 ∧ Barge.empty.newFloatOf.pos.z = 0 ∧
    lastF Barge.new.floats = some float1 ∧
    Barge.new.newFloatOf.pos.x =
      float1.pos.x + float1.width / 2 + Barge.new.newFloatOf.width / 2 ∧
    (∀ f ∈ Barge.new.addFloat.floats, f.id < Barge.new.addFloat.nextFloatId) := by
  have h1 := (addFloat_spec Barge.empty).1 rfl
  have hl : lastF Barge.new.floats = some float1 := by rw [new_eval]; rfl
  have h2 := (addFloat_spec Barge.new).2.1 float1 hl
  have h3 := (addFloat_spec Barge.new).2.2.2.2.2.1 (by
    rw [new_eval]
    intro f hf
    simp only [List.mem_singleton] at hf
    subst hf
    norm_num [float1])
  exact ⟨rfl, h1.1, h1.2, hl, h2.1, h3.2⟩

/-! ## Claim C9: validation of geometry and weight edits -/

/-- A rejected input: non-numeric (`none`, from a `NaN` parse) or
non-positive. -/
def rejected (inp : Option ℝ) : Prop :=
  inp = none ∨ ∃ v, inp = some v ∧ v ≤ 0

lemma applyEdit_rejected (old : ℝ) (inp : Option ℝ) (h : rejected inp) :
    applyEdit old inp = old := by
  rcases h with rfl | ⟨v, rfl, hv⟩
  · rfl
  · simp [applyEdit, not_lt.mpr hv]

/-- The four validated attribute writes of `editFloat`, independent of
the position handling. -/
lemma editFloat_attrs (f : Float) (len wid hgt wgt px pz : Option ℝ)
    (manualY : Bool) (py : Option ℝ) :
    (editFloat f len wid hgt wgt px pz manualY py).width = applyEdit f.width len ∧
    (editFloat f len wid hgt wgt px pz manualY py).depth = applyEdit f.depth wid ∧
    (editFloat f len wid hgt wgt px pz manualY py).height = applyEdit f.height hgt ∧
    (editFloat f len wid hgt wgt px pz manualY py).weight = applyEdit f.weight wgt := by
  refine ⟨?_, ?_, ?_, ?_⟩
  all_goals
    simp only [editFloat]
    split
    · rfl
    · split
      · cases py <;> rfl
      · rfl

/-- C9: a pontoon edit with a non-positive or non-numeric new
width, depth, height or weight is a no-op on that attribute: the prior
value is retained through the whole `updateFloatProperties` pipeline
(the model is a total function, so no exception propagates). -/
theorem updateFloatProperties_validation (b : Barge)
    (len wid hgt wgt px pz : Option ℝ) (manualY : Bool) (py : Option ℝ) :
    (rejected len →
      (b.updateFloatProperties len wid hgt wgt px pz manualY py).floats.headI.width =
        b.floats.headI.width) ∧
    (rejected wid →
      (b.updateFloatProperties len wid hgt wgt px pz manualY py).floats.headI.depth =
        b.floats.headI.depth) ∧
    (rejected hgt →
      (b.updateFloatProperties len wid hgt wgt px pz manualY py).floats.headI.height =
        b.floats.headI.height) ∧
    (rejected wgt →
      (b.updateFloatProperties len wid hgt wgt px pz manualY py).floats.headI.weight =
        b.floats.headI.weight) := by
  cases hb : b.floats with
  | nil =>
    refine ⟨fun _ => ?_, fun _ => ?_, fun _ => ?_, fun _ => ?_⟩ <;>
      simp [Barge.updateFloatProperties, Barge.update, hb, listModify]
  | cons f t =>
    have h := editFloat_attrs f len wid hgt wgt px pz manualY py
    refine ⟨fun hr => ?_, fun hr => ?_, fun hr => ?_, fun hr => ?_⟩
    · simp [Barge.updateFloatProperties, Barge.update, hb, listModify, h.1,
        applyEdit_rejected f.width len hr]
    · simp [Barge.updateFloatProperties, Barge.update, hb, listModify, h.2.1,
        applyEdit_rejected f.depth wid hr]
    · simp [Barge.updateFloatProperties, Barge.update, hb, listModify, h.2.2.1,
        applyEdit_rejected f.height hgt hr]
    · simp [Barge.updateFloatProperties, Barge.update, hb, listModify, h.2.2.2,
        applyEdit_rejected f.weight wgt hr]

/-- Witness for C9: editing the constructed barge's pontoon with a
negative width and a zero weight keeps both attributes unchanged. -/
theorem updateFloatProperties_validation_witness :
    rejected (some (-3)) ∧ rejected (some 0) ∧
    (Barge.new.updateFloatProperties (some (-3)) none none (some 0)
        none none false none).floats.headI.width = Barge.new.floats.headI.width ∧
    (Barge.new.updateFloatProperties (some (-3)) none none (some 0)
        none none false none).floats.headI.weight = Barge.new.floats.headI.weight := by
  have hneg : rejected (some (-3)) := Or.inr ⟨-3, rfl, by norm_num⟩
  have hzero : rejected (some 0) := Or.inr ⟨0, rfl, le_refl 0⟩
  have h := updateFloatProperties_validation Barge.new (some (-3)) none none
    (some 0) none none false none
  exact ⟨hneg, hzero, h.1 hneg, h.2.2.2 hzero⟩

/-! ## Claim C10: the barge always keeps a pontoon and an item -/

/-- States reachable from the `Barge` constructor through the
operations of the physics core. -/
inductive Reachable : Barge → Prop
  | init : Reachable Barge.new
  | addFloat {b : Barge} : Reachable b → Reachable b.addFloat
  | addItem {b : Barge} : Reachable b → Reachable b.addItem
  | update {b : Barge} : Reachable b → Reachable b.update
  | calculateCenterFlotation {b : Barge} :
      Reachable b → Reachable b.calculateCenterFlotation
  | calculateTilt {b : Barge} : Reachable b → Reachable b.calculateTilt
  | applyTiltToFloats {b : Barge} : Reachable b → Reachable b.applyTiltToFloats
  | updateItemPositions {b : Barge} : Reachable b → Reachable b.updateItemPositions
  | moveItem {b : Barge} (i : ℕ) (x z : ℝ) :
      Reachable b → Reachable (b.moveItem i x z)
  | updateFloatProperties {b : Barge} (len wid hgt wgt px pz : Option ℝ)
      (manualY : Bool) (py : Option ℝ) :
      Reachable b →
      Reachable (b.updateFloatProperties len wid hgt wgt px pz manualY py)

lemma addFloat_items (b : Barge) : b.addFloat.items = b.items := by
  simp [Barge.addFloat]

lemma addItem_floats (b : Barge) : b.addItem.floats = b.floats := rfl

lemma addItem_items_length (b : Barge) :
    b.addItem.items.length = b.items.length + 1 := by
  simp [Barge.addItem]

lemma update_lengths (b : Barge) :
    b.update.floats.length = b.floats.length ∧
    b.update.items.length = b.items.length := by
  simp [Barge.update]

lemma moveItem_lengths (b : Barge) (i : ℕ) (x z : ℝ) :
    (b.moveItem i x z).floats.length = b.floats.length ∧
    (b.moveItem i x z).items.length = b.items.length := by
  unfold Barge.moveItem
  split
  · simp [update_lengths, listModify_length]
  · exact ⟨rfl, rfl⟩

lemma updateFloatProperties_lengths (b : Barge) (len wid hgt wgt px pz : Option ℝ)
    (manualY : Bool) (py : Option ℝ) :
    (b.updateFloatProperties len wid hgt wgt px pz manualY py).floats.length =
      b.floats.length ∧
    (b.updateFloatProperties len wid hgt wgt px pz manualY py).items.length =
      b.items.length := by
  simp [Barge.updateFloatProperties, Barge.update, listModify_length]

/-- C10: every barge reachable from the constructor has at least
one pontoon and at least one item: the constructor adds one of each
and no operation removes members, so the accesses to pontoon 0 and
item 0 always find an element (the empty-list guard branches are
unreachable). -/
theorem barge_members_invariant (b : Barge) (h : Reachable b) :
    1 ≤ b.floats.length ∧ 1 ≤ b.items.length := by
  induction h with
  | init => rw [new_eval]; exact ⟨by simp, by simp⟩
  | addFloat _ ih =>
    refine ⟨?_, ?_⟩
    · rw [addFloat_floats]
      simp only [List.length_append, List.length_singleton]
      omega
    · rw [addFloat_items]
      exact ih.2
  | addItem _ ih =>
    refine ⟨?_, ?_⟩
    · rw [addItem_floats]
      exact ih.1
    · rw [addItem_items_length]
      omega
  | update _ ih =>
    rw [(update_lengths _).1, (update_lengths _).2]
    exact ih
  | calculateCenterFlotation _ ih => simpa using ih
  | calculateTilt _ ih => simpa using ih
  | applyTiltToFloats _ ih => simpa using ih
  | updateItemPositions _ ih => simpa using ih
  | moveItem i x z _ ih =>
    rw [(moveItem_lengths _ i x z).1, (moveItem_lengths _ i x z).2]
    exact ih
  | updateFloatProperties len wid hgt wgt px pz manualY py _ ih =>
    rw [(updateFloatProperties_lengths _ len wid hgt wgt px pz manualY py).1,
      (updateFloatProperties_lengths _ len wid hgt wgt px pz manualY py).2]
    exact ih

/-- Witness for C10 at the constructed barge. -/
theorem barge_members_invariant_witness :
    1 ≤ Barge.new.floats.length ∧ 1 ≤ Barge.new.items.length :=
  barge_members_invariant Barge.new Reachable.init

/-! ## Claim C8: tilt after moving the item to x = 10 -/

lemma update_centerFlotation (b : Barge) :
    b.update.centerFlotation = b.calculateCenterFlotation.centerFlotation := by
  simp [Barge.update]

lemma update_tiltX (b : Barge) :
    b.update.tiltX = b.calculateCenterFlotation.calculateTilt.tiltX := by
  simp [Barge.update]

lemma update_tiltZ (b : Barge) :
    b.update.tiltZ = b.calculateCenterFlotation.calculateTilt.tiltZ := by
  simp [Barge.update]

/-- The tilt angles produced by `moveItem 0 10 0` on the constructed
barge (one 20×10 pontoon at the origin): the requested x is clamped to
`20 / 2 - 1 = 9`, so `tiltZ = (9 / 10) * 0.05 = 0.045`, not `0.05`. -/
theorem moveItem_offset10_tilt :
    (Barge.new.moveItem 0 10 0).tiltZ = 0.045 ∧
    (Barge.new.moveItem 0 10 0).tiltX = 0 := by
  rw [new_eval]
  constructor <;>
    norm_num [Barge.moveItem, listModify, update_tiltX, update_tiltZ,
      Barge.calculateCenterFlotation, Barge.calculateTilt,
      float1, item1, List.headI, min_def, max_def]

/-- Counterexample to C8 as stated: after `moveItem 0 10 0` the tilt
about the Z axis is `0.045`, not the claimed `0.05`, because the
requested offset 10 is clamped to 9 first. -/
theorem moveItem_offset10_cex :
    (Barge.new.moveItem 0 10 0).tiltZ ≠ 0.05 := by
  rw [moveItem_offset10_tilt.1]
  norm_num

/-! ## Claim C6: `moveItem` clamping -/

lemma listModify_getElem?_self {α : Type*} (l : List α) (i : ℕ) (g : α → α) :
    (listModify l i g)[i]? = (l[i]?).map g := by
  induction l generalizing i with
  | nil => simp [listModify]
  | cons a t ih =>
    cases i with
    | zero => simp [listModify]
    | succ k => simpa [listModify] using ih k

/-- The `update` pipeline never changes any item's horizontal position. -/
lemma update_items_xz (b : Barge) (i : ℕ) (item' : Item)
    (h : b.update.items[i]? = some item') :
    ∃ it₀, b.items[i]? = some it₀ ∧
      item'.pos.x = it₀.pos.x ∧ item'.pos.z = it₀.pos.z := by
  simp only [Barge.update, updateItemPositions_items_eq, applyTiltToFloats_items,
    calculateTilt_items, calculateCenterFlotation_items, List.getElem?_map] at h
  cases hb : b.items[i]? with
  | none => rw [hb] at h; simp at h
  | some it₀ =>
    rw [hb] at h
    simp only [Option.map_some', Option.some.injEq] at h
    exact ⟨it₀, rfl, by rw [← h]; simp, by rw [← h]; simp⟩

/-- C6 (amended): provided pontoon 0 is at least 2 units wide and
2 units deep (so that the clamp interval is nonempty; true of the
default 20×10 pontoon), `moveItem` with a valid index writes the
item's horizontal position clamped to
`[-(width / 2 - 1), width / 2 - 1]` × `[-(depth / 2 - 1), depth / 2 - 1]`,
a request at or beyond a bound lands exactly on that bound, and the
whole `update` pipeline runs afterwards without disturbing the clamped
values; out-of-range requests are clamped, never rejected (the model
is a total function, so no error is raised).  For pontoons narrower
than 2 units the code instead returns the lower bound
`-(width / 2 - 1)` for every request, so the claim as stated fails
there. -/
theorem moveItem_clamp_spec (b : Barge) (idx : ℕ) (x z : ℝ)
    (hw : 2 ≤ b.floats.headI.width) (hd : 2 ≤ b.floats.headI.depth)
    (hidx : idx < b.items.length) :
    ∀ item', (b.moveItem idx x z).items[idx]? = some item' →
      item'.pos.x = max (-(b.floats.headI.width / 2 - 1)) (min (b.floats.headI.width / 2 - 1) x) ∧
      -(b.floats.headI.width / 2 - 1) ≤ item'.pos.x ∧
      item'.pos.x ≤ b.floats.headI.width / 2 - 1 ∧
      (b.floats.headI.width / 2 - 1 ≤ x → item'.pos.x = b.floats.headI.width / 2 - 1) ∧
      item'.pos.z = max (-(b.floats.headI.depth / 2 - 1)) (min (b.floats.headI.depth / 2 - 1) z) ∧
      -(b.floats.headI.depth / 2 - 1) ≤ item'.pos.z ∧
      item'.pos.z ≤ b.floats.headI.depth / 2 - 1 ∧
      (b.floats.headI.depth / 2 - 1 ≤ z → item'.pos.z = b.floats.headI.depth / 2 - 1) := by
  intro item' hit
  have hwv0 : (0:ℝ) ≤ b.floats.headI.width / 2 - 1 := by linarith
  have hdv0 : (0:ℝ) ≤ b.floats.headI.depth / 2 - 1 := by linarith
  rw [Barge.moveItem, if_pos hidx] at hit
  obtain ⟨it₀, h0, hx', hz'⟩ := update_items_xz _ _ _ hit
  simp only [listModify_getElem?_self] at h0
  cases hb : b.items[idx]? with
  | none => rw [hb] at h0; simp at h0
  | some it₁ =>
    rw [hb] at h0
    simp only [Option.map_some', Option.some.injEq] at h0
    have hx : item'.pos.x = max (-(b.floats.headI.width / 2 - 1))
        (min (b.floats.headI.width / 2 - 1) x) := by rw [hx', ← h0]
    have hz : item'.pos.z = max (-(b.floats.headI.depth / 2 - 1))
        (min (b.floats.headI.depth / 2 - 1) z) := by rw [hz', ← h0]
    have hwle : -(b.floats.headI.width / 2 - 1) ≤ b.floats.headI.width / 2 - 1 := by
      linarith
    have hdle : -(b.floats.headI.depth / 2 - 1) ≤ b.floats.headI.depth / 2 - 1 := by
      linarith
    refine ⟨hx, ?_, ?_, ?_, hz, ?_, ?_, ?_⟩
    · rw [hx]; exact le_max_left _ _
    · rw [hx]; exact max_le hwle (min_le_left _ _)
    · intro hbeyond
      rw [hx, min_eq_left hbeyond, max_eq_right hwle]
    · rw [hz]; exact le_max_left _ _
    · rw [hz]; exact max_le hdle (min_le_left _ _)
    · intro hbeyond
      rw [hz, min_eq_left hbeyond, max_eq_right hdle]

/-- Witness for C6 on the constructed barge: a request of x = 100
(far beyond the deck) lands exactly on the bound `20 / 2 - 1 = 9`. -/
theorem moveItem_clamp_spec_witness :
    (2:ℝ) ≤ Barge.new.floats.headI.width ∧ (2:ℝ) ≤ Barge.new.floats.headI.depth ∧
    0 < Barge.new.items.length ∧
    ∀ item', (Barge.new.moveItem 0 100 0).items[0]? = some item' →
      item'.pos.x = Barge.new.floats.headI.width / 2 - 1 := by
  have hw : (2:ℝ) ≤ Barge.new.floats.headI.width := by
    rw [new_eval]; norm_num [List.headI, float1]
  have hd : (2:ℝ) ≤ Barge.new.floats.headI.depth := by
    rw [new_eval]; norm_num [List.headI, float1]
  have hidx : 0 < Barge.new.items.length := by rw [new_eval]; simp
  refine ⟨hw, hd, hidx, fun item' hit => ?_⟩
  have h := moveItem_clamp_spec Barge.new 0 100 0 hw hd hidx item' hit
  refine (h.2.2.2.1 ?_)
  rw [new_eval]; norm_num [List.headI, float1]

/-- A barge whose pontoon has been edited (through the property
panel) to a width of 1.5 units, narrower than 2. -/
noncomputable def bNarrow : Barge :=
  Barge.new.updateFloatProperties (some 1.5) none none none none none false none

/-- Counterexample to C6 as stated: on a pontoon of width 1.5, the
bound `width / 2 - 1` is negative, and a request of x = 5 (beyond the
bound) is written as `+1 / 4`, not the claimed `width / 2 - 1 = -1 / 4`:
the clamp overshoots the stated rectangle. -/
theorem moveItem_narrow_cex :
    (bNarrow.floats.headI.width / 2 - 1 = -(1 / 4) ∧
     bNarrow.floats.headI.width / 2 - 1 ≤ 5) ∧
    ((bNarrow.moveItem 0 5 0).items[0]?).map (fun it => it.pos.x) = some (1 / 4) ∧
    ((1:ℝ) / 4) ≠ -(1 / 4) := by
  constructor
  · constructor <;>
      norm_num [bNarrow, new_eval, Barge.updateFloatProperties, listModify,
        editFloat, applyEdit, accepted, Barge.update,
        Barge.calculateCenterFlotation, Barge.calculateTilt, float1, item1,
        List.headI]
  constructor
  · norm_num [bNarrow, new_eval, Barge.updateFloatProperties, listModify,
      editFloat, applyEdit, accepted, Barge.update, Barge.moveItem,
      Barge.calculateCenterFlotation, Barge.calculateTilt,
      Barge.applyTiltToFloats, Barge.updateItemPositions, tiltFloat, tiltItem,
      float1, item1, List.headI, Float.calculateDraft, min_def, max_def]
  · norm_num

/-! ## Claim C1: idempotence of `update` -/

lemma calcCenter_nil (b : Barge) (h : b.floats = []) :
    b.calculateCenterFlotation = b := by
  obtain ⟨fl, it, n, c, tx, tz⟩ := b
  simp only at h
  subst h
  rfl

lemma update_nextFloatId (b : Barge) : b.update.nextFloatId = b.nextFloatId := by
  simp [Barge.update]

@[simp] lemma headI_map_tiltFloat_restPosition (c : Vec3) (tX tZ : ℝ) (l : List Float) :
    (l.map (tiltFloat c tX tZ)).headI.restPosition = l.headI.restPosition := by
  cases l <;> simp

@[simp] lemma headI_map_tiltFloat_height (c : Vec3) (tX tZ : ℝ) (l : List Float) :
    (l.map (tiltFloat c tX tZ)).headI.height = l.headI.height := by
  cases l <;> simp

@[simp] lemma headI_map_atRest_restPosition (l : List Float) :
    (l.map atRest).headI.restPosition = l.headI.restPosition := by
  cases l <;> simp [atRest]

@[simp] lemma headI_map_atRest_height (l : List Float) :
    (l.map atRest).headI.height = l.headI.height := by
  cases l <;> simp [atRest]

lemma update_floats (b : Barge) :
    b.update.floats = b.floats.map (tiltFloat b.calculateCenterFlotation.centerFlotation
      b.calculateCenterFlotation.calculateTilt.tiltX
      b.calculateCenterFlotation.calculateTilt.tiltZ) := by
  simp [Barge.update]

lemma update_items (b : Barge) :
    b.update.items = b.items.map (tiltItem b.calculateCenterFlotation.centerFlotation
      b.calculateCenterFlotation.calculateTilt.tiltX
      b.calculateCenterFlotation.calculateTilt.tiltZ
      (b.floats.headI.restPosition.y + b.floats.headI.height / 2)) := by
  simp [Barge.update]

/-- With zero tilt angles, the per-item body rests the item at the
deck surface height with zero rotation, independent of its previous
vertical position. -/
lemma tiltItem_zero (c : Vec3) (sy : ℝ) (i : Item) :
    tiltItem c 0 0 sy i =
      { i with pos := ⟨i.pos.x, sy + i.height / 2, i.pos.z⟩, rotX := 0, rotZ := 0 } := by
  ext <;> simp [tiltItem]

lemma atRest_idem (f : Float) : atRest (atRest f) = atRest f := rfl

lemma tiltItem_zero_idem (c : Vec3) (sy : ℝ) (i : Item) :
    tiltItem c 0 0 sy (tiltItem c 0 0 sy i) = tiltItem c 0 0 sy i := by
  simp [tiltItem_zero]

/-- The center produced by `calculateCenterFlotation` depends only on
the floats' horizontal positions and footprints (and, when the list is
empty, on the prior center). -/
lemma calcCenter_center_congr (b₁ b₂ : Barge)
    (hfl : b₁.floats.map (fun f => (f.pos.x, f.pos.z, f.width, f.depth)) =
      b₂.floats.map (fun f => (f.pos.x, f.pos.z, f.width, f.depth)))
    (hc : b₁.floats = [] → b₁.centerFlotation = b₂.centerFlotation) :
    b₁.calculateCenterFlotation.centerFlotation =
      b₂.calculateCenterFlotation.centerFlotation := by
  cases h1 : b₁.floats with
  | nil =>
    have h2 : b₂.floats = [] := by
      rw [h1] at hfl
      exact List.map_eq_nil_iff.mp hfl.symm
    rw [calcCenter_nil b₁ h1, calcCenter_nil b₂ h2]
    exact hc h1
  | cons f t =>
    have hne1 : b₁.floats ≠ [] := by rw [h1]; simp
    have hne2 : b₂.floats ≠ [] := by
      intro h0
      rw [h0] at hfl
      exact hne1 (List.map_eq_nil_iff.mp hfl)
    rw [calculateCenterFlotation_eval b₁ hne1, calculateCenterFlotation_eval b₂ hne2]
    have e1 : b₁.floats.map (fun f => f.pos.x * (f.width * f.depth)) =
        b₂.floats.map (fun f => f.pos.x * (f.width * f.depth)) := by
      have h := congrArg (List.map (fun q : ℝ × ℝ × ℝ × ℝ => q.1 * (q.2.2.1 * q.2.2.2))) hfl
      simpa [List.map_map, Function.comp] using h
    have e2 : b₁.floats.map (fun f => f.pos.z * (f.width * f.depth)) =
        b₂.floats.map (fun f => f.pos.z * (f.width * f.depth)) := by
      have h := congrArg (List.map (fun q : ℝ × ℝ × ℝ × ℝ => q.2.1 * (q.2.2.1 * q.2.2.2))) hfl
      simpa [List.map_map, Function.comp] using h
    have e3 : b₁.floats.map (fun f => f.width * f.depth) =
        b₂.floats.map (fun f => f.width * f.depth) := by
      have h := congrArg (List.map (fun q : ℝ × ℝ × ℝ × ℝ => q.2.2.1 * q.2.2.2)) hfl
      simpa [List.map_map, Function.comp] using h
    rw [e1, e2, e3]

/-- C1 (amended): `update` is idempotent on the states where every
pontoon sits at its rest position and the computed tilt angles are
zero (item 0 at the center of flotation): there a second `update`
reproduces the state exactly.  In general `update` is not idempotent,
because `calculateCenterFlotation` reads the tilted pontoon positions
written by the previous `applyTiltToFloats` rather than the rest
positions, so the center, and with it the tilt, drifts. -/
theorem update_idempotent_on_rest (b : Barge)
    (hrest : ∀ f ∈ b.floats, f.pos = f.restPosition)
    (hX : b.update.tiltX = 0) (hZ : b.update.tiltZ = 0) :
    b.update.update = b.update := by
  have hXb : b.calculateCenterFlotation.calculateTilt.tiltX = 0 := by
    rw [← update_tiltX]; exact hX
  have hZb : b.calculateCenterFlotation.calculateTilt.tiltZ = 0 := by
    rw [← update_tiltZ]; exact hZ
  have hfl : b.update.floats = b.floats.map atRest := by
    rw [update_floats, hXb, hZb]
    exact List.map_congr_left fun f _ => tiltFloat_zero _ f
  have hit : b.update.items = b.items.map
      (tiltItem b.calculateCenterFlotation.centerFlotation 0 0
        (b.floats.headI.restPosition.y + b.floats.headI.height / 2)) := by
    rw [update_items, hXb, hZb]
  have htuple : b.update.floats.map (fun f => (f.pos.x, f.pos.z, f.width, f.depth)) =
      b.floats.map (fun f => (f.pos.x, f.pos.z, f.width, f.depth)) := by
    rw [hfl, List.map_map]
    refine List.map_congr_left fun f hf => ?_
    simp [atRest, Function.comp, ← hrest f hf]
  have hcen : b.update.calculateCenterFlotation.centerFlotation =
      b.calculateCenterFlotation.centerFlotation := by
    refine calcCenter_center_congr _ _ htuple ?_
    intro h0
    have hb0 : b.floats = [] := by
      rw [hfl] at h0
      exact List.map_eq_nil_iff.mp h0
    rw [update_centerFlotation, calcCenter_nil b hb0]
  have htX2 : b.update.calculateCenterFlotation.calculateTilt.tiltX = 0 := by
    cases hbi : b.items with
    | nil =>
      have h0 : b.update.items = [] := by rw [hit, hbi]; rfl
      simp [Barge.calculateTilt, h0, hX]
    | cons i t =>
      have h0 : b.update.items =
          tiltItem b.calculateCenterFlotation.centerFlotation 0 0
              (b.floats.headI.restPosition.y + b.floats.headI.height / 2) i ::
            t.map (tiltItem b.calculateCenterFlotation.centerFlotation 0 0
              (b.floats.headI.restPosition.y + b.floats.headI.height / 2)) := by
        rw [hit, hbi]
        rfl
      have h1 : b.calculateCenterFlotation.items = i :: t := by
        rw [calculateCenterFlotation_items, hbi]
      have hXv := hXb
      simp only [Barge.calculateTilt, h1] at hXv
      simp [Barge.calculateTilt, h0, hcen]
      simpa using hXv
  have htZ2 : b.update.calculateCenterFlotation.calculateTilt.tiltZ = 0 := by
    cases hbi : b.items with
    | nil =>
      have h0 : b.update.items = [] := by rw [hit, hbi]; rfl
      simp [Barge.calculateTilt, h0, hZ]
    | cons i t =>
      have h0 : b.update.items =
          tiltItem b.calculateCenterFlotation.centerFlotation 0 0
              (b.floats.headI.restPosition.y + b.floats.headI.height / 2) i ::
            t.map (tiltItem b.calculateCenterFlotation.centerFlotation 0 0
              (b.floats.headI.restPosition.y + b.floats.headI.height / 2)) := by
        rw [hit, hbi]
        rfl
      have h1 : b.calculateCenterFlotation.items = i :: t := by
        rw [calculateCenterFlotation_items, hbi]
      have hZv := hZb
      simp only [Barge.calculateTilt, h1] at hZv
      simp [Barge.calculateTilt, h0, hcen]
      simpa using hZv
  apply Barge.ext
  · rw [update_floats (b.update), hcen, htX2, htZ2, hfl, List.map_map]
    refine List.map_congr_left fun f _ => ?_
    show tiltFloat _ 0 0 (atRest f) = atRest f
    rw [tiltFloat_zero, atRest_idem]
  · rw [update_items (b.update), hcen, htX2, htZ2, hit, List.map_map]
    rw [hfl]
    simp only [headI_map_atRest_restPosition, headI_map_atRest_height]
    exact List.map_congr_left fun i _ => tiltItem_zero_idem _ _ i
  · rw [update_nextFloatId]
  · rw [update_centerFlotation (b.update), hcen, ← update_centerFlotation b]
  · rw [update_tiltX (b.update), htX2, hX]
  · rw [update_tiltZ (b.update), htZ2, hZ]

/-- Witness for C1: the constructed barge is at rest with zero
computed tilt, and a second `update` reproduces the first exactly. -/
theorem update_idempotent_on_rest_witness :
    (∀ f ∈ Barge.new.floats, f.pos = f.restPosition) ∧
    Barge.new.update.tiltX = 0 ∧ Barge.new.update.tiltZ = 0 ∧
    Barge.new.update.update = Barge.new.update := by
  have h1 : ∀ f ∈ Barge.new.floats, f.pos = f.restPosition := by
    rw [new_eval]
    intro f hf
    simp only [List.mem_singleton] at hf
    subst hf
    rfl
  have h2 : Barge.new.update.tiltX = 0 := by
    rw [new_eval]
    norm_num [update_tiltX, Barge.calculateCenterFlotation, Barge.calculateTilt,
      float1, item1, List.headI]
  have h3 : Barge.new.update.tiltZ = 0 := by
    rw [new_eval]
    norm_num [update_tiltZ, Barge.calculateCenterFlotation, Barge.calculateTilt,
      float1, item1, List.headI]
  exact ⟨h1, h2, h3, update_idempotent_on_rest Barge.new h1 h2 h3⟩

/-- The pontoon after `moveItem 0 5 0` on the constructed barge: the
rest position rotated by the tilt `tiltZ = 0.025 = 1 / 40`, so its
current x is no longer the rest x. -/
noncomputable def float1tilted : Float :=
  { float1 with
      pos := ⟨74 / 39 * Real.sin (1 / 40), 74 / 39 * Real.cos (1 / 40), 0⟩,
      rotX := 0, rotZ := -(1 / 40) }

/-- The item after `moveItem 0 5 0` on the constructed barge. -/
noncomputable def item1tilted : Item :=
  { item1 with
      pos := ⟨5, -(5 * Real.sin (1 / 40)) + 421 / 78 * Real.cos (1 / 40) + 1, 0⟩,
      rotX := 0, rotZ := -(1 / 40) }

/-- Full evaluation of `moveItem 0 5 0` on the constructed barge. -/
lemma b1_eval : Barge.new.moveItem 0 5 0 =
    { floats := [float1tilted], items := [item1tilted], nextFloatId := 2,
      centerFlotation := ⟨0, 0, 0⟩, tiltX := 0, tiltZ := 1 / 40 } := by
  rw [new_eval]
  norm_num [Barge.moveItem, listModify, Barge.update,
    Barge.calculateCenterFlotation, Barge.calculateTilt,
    Barge.applyTiltToFloats, Barge.updateItemPositions, tiltFloat, tiltItem,
    float1, item1, float1tilted, item1tilted, List.headI, min_def, max_def,
    Real.sin_neg, Real.cos_neg]

/-- The tilt recomputed by a second `update` after `moveItem 0 5 0`:
the center of flotation has drifted to the tilted pontoon x. -/
lemma b2_tiltZ : ((Barge.new.moveItem 0 5 0).update).tiltZ =
    (5 - 74 / 39 * Real.sin (1 / 40)) / 10 * 0.05 := by
  rw [b1_eval]
  norm_num [update_tiltZ, Barge.calculateCenterFlotation, Barge.calculateTilt,
    float1tilted, item1tilted, float1, item1, List.headI]

/-- Counterexample to C1 as stated: after moving the item to x = 5 on
the constructed barge, a second consecutive `update` with no
intervening mutation yields a different tilt about the Z axis than the
first (the center of flotation drifts because it is recomputed from
the tilted pontoon positions). -/
theorem update_twice_differs :
    ((Barge.new.moveItem 0 5 0).update).tiltZ ≠ (Barge.new.moveItem 0 5 0).tiltZ := by
  have h1 : (Barge.new.moveItem 0 5 0).tiltZ = 1 / 40 := by rw [b1_eval]
  rw [b2_tiltZ, h1]
  have hs : 0 < Real.sin (1 / 40) :=
    Real.sin_pos_of_pos_of_lt_pi (by norm_num) (by linarith [Real.pi_gt_three])
  have ha : 0 < 74 / 39 * Real.sin (1 / 40) := mul_pos (by norm_num) hs
  intro heq
  nlinarith [heq, ha]

end Sim
